import Mathlib

/-!
Shallow embedding of the real-time WebSocket core of the `agora` repository
(`src/server/websocket.ts` together with the persistence collaborator
`MemStorage` of `src/server/agora.ts`).

Modelling conventions:
* A JavaScript value that may be `undefined` is an `Option`; JavaScript
  truthiness of optional strings / numbers is made explicit (`truthyS`,
  `truthyN`: `undefined`, `""` and `0` are falsy).
* Each `case` of the message `switch` becomes a pure handler that receives the
  current registry (`wss.clients` as a `List Conn`), the channel directory
  (`channels : ChanMap`) and the connection's own record, and returns updated
  state together with the ordered trace of observable effects (`Act`):
  frames handed to `send`, calls into the persistence collaborator, pings and
  terminations.  Trace order follows statement order in the source.
* The persistence collaborator catches its own errors and returns `null`; it is
  modelled by a `Bool` oracle (`ok`) deciding whether the insert succeeds, with
  `none` as the null sentinel.
-/

/-- Attachment after normalisation (`websocket.ts` interface `Attachment`). -/
structure Attachment where
  atype : String
  url : String
  name : String
  size : Option Nat
  mimeType : Option String
  thumbnailUrl : Option String
deriving DecidableEq, Repr

/-- Inbound attachment, possibly missing `type`/`name`
(`websocket.ts` interface `IncomingAttachment`). -/
structure IncomingAttachment where
  atype : Option String
  url : String
  name : Option String
  size : Option Nat
  mimeType : Option String
  thumbnailUrl : Option String
deriving DecidableEq, Repr

/-- A message document in the `messages` collection of the storage
collaborator. -/
structure StoredMessage where
  mtype : String
  channelId : Option String
  senderId : Option String
  content : Option String
  attachments : Option (List Attachment)
  createdAt : Nat
deriving DecidableEq, Repr

/-- A status-update document in the `statusUpdates` collection. -/
structure StatusRec where
  patientId : String
  status : Option String
  createdBy : Option String
  location : Option String
  details : Option String
  createdAt : Nat
deriving DecidableEq, Repr

/-- Payload handed to `storage.addMessageToChannel` by the router. -/
structure PersistMsg where
  mtype : String
  senderId : Option String
  content : Option String
  attachments : Option (List Attachment)
deriving DecidableEq, Repr

/-- Payload handed to `storage.addStatusUpdate` by the router. -/
structure PersistStatus where
  patientId : String
  status : Option String
  createdBy : Option String
  location : Option String
  details : Option String
deriving DecidableEq, Repr

/-- Outbound frames produced by the router (JSON payloads of `ws.send`). -/
inductive Frame where
  | history (messages : List StoredMessage)
  | statusUpdates (updates : List StatusRec)
  | system (channelId : Option String) (content : String)
  | chat (mtype : String) (channelId : Option String) (senderId : String)
      (senderName : String) (content : Option String)
      (attachments : Option (List Attachment))
  | userStatus (empId : String) (username : Option String) (status : String)
      (inCall : Bool) (hasLastSeen : Bool)
  | callInvitation (channelId : Option String) (callType : Option String)
      (inviterId : String) (inviterName : String)
  | callSignal (channelId : Option String) (callerId : String)
      (callerName : String) (callType : Option String) (action : Option String)
  | statusUpdateEvt (patientId : String) (status : Option String)
      (createdBy : String) (createdByName : String)
deriving DecidableEq, Repr

/-- One observable effect of a handler, in trace order. -/
inductive Act where
  | send (connId : Nat) (frame : Frame)
  | persistMsg (channelId : Option String) (msg : PersistMsg)
  | persistStatus (u : PersistStatus)
  | ping (connId : Nat)
  | terminate (connId : Nat)
deriving DecidableEq, Repr

/-- One WebSocket connection as extended by the server
(`ExtendedWebSocket`): the optional bound identity, the optional legacy
numeric id, the current channel subscription, the liveness flag and whether
`readyState` is `OPEN`. -/
structure Conn where
  id : Nat
  empId : Option String
  userId : Option Nat
  username : Option String
  channelId : Option String
  isAlive : Bool
  isOpenConn : Bool
deriving DecidableEq, Repr

/-- JavaScript truthiness of an optional string (`undefined` and `""` are
falsy). -/
def truthyS : Option String → Bool
  | none => false
  | some s => !(s == "")

/-- JavaScript truthiness of an optional number (`undefined` and `0` are
falsy). -/
def truthyN : Option Nat → Bool
  | none => false
  | some n => !(n == 0)

/-- `o || dflt` on an optional string against a string default. -/
def jsOrD (o : Option String) (dflt : String) : String :=
  if truthyS o then o.getD dflt else dflt

/-- Template-literal rendering of a possibly-`undefined` string. -/
def jsShow : Option String → String
  | some s => s
  | none => "undefined"

/-- `ws.empId || (ws.userId ? ws.userId.toString() : '0')` — the identity
string stamped on outbound frames. -/
def wsIdentity (ws : Conn) : String :=
  if truthyS ws.empId then ws.empId.getD ""
  else if truthyN ws.userId then toString (ws.userId.getD 0)
  else "0"

/-- `ws.empId || ws.userId?.toString()` — the identity stored with persisted
messages (may be `undefined`). -/
def persistSender (ws : Conn) : Option String :=
  if truthyS ws.empId then ws.empId else ws.userId.map toString

/-- The channel directory `channels : Map<string, ExtendedWebSocket[]>`,
keyed by the (possibly `undefined`) channel id, holding member connection
ids in join order, duplicates included. -/
abbrev ChanMap : Type := List (Option String × List Nat)

/-- `channels.get(k) || []`. -/
def chanGet (m : ChanMap) (k : Option String) : List Nat :=
  match m.find? (fun p => p.1 == k) with
  | some p => p.2
  | none => []

/-- `if (!channels.has(k)) channels.set(k, []); channels.get(k)?.push(cid)`:
append the member to the key's entry (a `Map` key is unique, so at most one
entry matches), creating the entry on first join. -/
def chanPush (m : ChanMap) (k : Option String) (cid : Nat) : ChanMap :=
  match m with
  | [] => [(k, [cid])]
  | p :: m => if p.1 == k then (p.1, p.2 ++ [cid]) :: m else p :: chanPush m k cid

/-- `clients.indexOf(ws)` / `clients.splice(index, 1)` — remove the first
occurrence of the connection from the key's member array (a missing key sees
the `|| []` fallback and changes nothing). -/
def chanRemoveFirst (m : ChanMap) (k : Option String) (cid : Nat) : ChanMap :=
  match m with
  | [] => []
  | p :: m => if p.1 == k then (p.1, p.2.erase cid) :: m
              else p :: chanRemoveFirst m k cid

/-- Resolve a member entry back to the live connection in `wss.clients`;
a connection that has been closed and dropped from the registry resolves to
`none`. -/
def findConn (conns : List Conn) (cid : Nat) : Option Conn :=
  conns.find? (fun c => c.id == cid)

/-- `client.readyState === WebSocket.OPEN` for a member entry. -/
def isOpen (conns : List Conn) (cid : Nat) : Bool :=
  match findConn conns cid with
  | some c => c.isOpenConn
  | none => false

/-- The `broadcast` helper of `websocket.ts`: send the frame to every member
of the channel, in member-list order, skipping connections whose transport is
not `OPEN`. -/
def broadcast (conns : List Conn) (channels : ChanMap) (k : Option String)
    (f : Frame) : List Act :=
  (chanGet channels k).filterMap (fun cid =>
    if isOpen conns cid then some (Act.send cid f) else none)

/-- A `wss.clients.forEach` broadcast to every registered connection whose
transport is `OPEN` (used for presence events). -/
def globalActs (conns : List Conn) (f : Frame) : List Act :=
  conns.filterMap (fun c =>
    if c.isOpenConn then some (Act.send c.id f) else none)

/-- State of the persistence collaborator (`MemStorage` backed by the
document store): the `messages` and `statusUpdates` collections, the set of
existing patient ids, and the `patientId -> channel _id` association of the
`channels` collection. -/
structure Storage where
  messages : List StoredMessage
  patients : List String
  statusUpdates : List StatusRec
  channelOfPatient : List (String × String)
deriving DecidableEq, Repr

/-- `MemStorage.getChannelMessages`: documents of the channel sorted by
`createdAt` ascending (oldest first). -/
def getChannelMessages (s : Storage) (k : Option String) : List StoredMessage :=
  List.insertionSort (fun a b => a.createdAt ≤ b.createdAt)
    (s.messages.filter (fun m => m.channelId == k))

/-- `MemStorage.getPatientById`: `new ObjectId(id)` throws on a missing id
(caught, yielding `null`), otherwise the patient is looked up. -/
def getPatientById (s : Storage) (pid : Option String) : Bool :=
  match pid with
  | some p => s.patients.contains p
  | none => false

/-- `MemStorage.getStatusUpdates`: documents of the patient sorted by
`createdAt` descending (newest first). -/
def getStatusUpdates (s : Storage) (pid : Option String) : List StatusRec :=
  match pid with
  | some p =>
      List.insertionSort (fun a b => b.createdAt ≤ a.createdAt)
        (s.statusUpdates.filter (fun u => u.patientId == p))
  | none => []

/-- `MemStorage.getChannelByPatientId` reduced to the broadcast key
`channel._id.toString()` the router derives from it. -/
def getChannelByPatientId (s : Storage) (pid : String) : Option String :=
  (s.channelOfPatient.find? (fun p => p.1 == pid)).map (fun p => p.2)

/-- `MemStorage.addMessageToChannel` (`agora.ts`): on success the stored
document re-derives its `type` as `attachment` whenever the payload carries a
non-empty attachment array, falling back to `message.type || 'text'`; on any
error the method logs and returns `null` (the oracle `ok` decides which). -/
def addMessageToChannel (ok : Bool) (channelId : Option String)
    (m : PersistMsg) (now : Nat) : Option StoredMessage :=
  if ok then
    let hasAttachments :=
      match m.attachments with
      | some l => !l.isEmpty
      | none => false
    some { mtype := if hasAttachments then "attachment"
                    else (if m.mtype == "" then "text" else m.mtype),
           channelId := channelId,
           senderId := m.senderId,
           content := m.content,
           attachments := m.attachments,
           createdAt := now }
  else none

/-- Inbound `auth` frame fields read by the handler. -/
structure AuthData where
  empId : Option String
  userId : Option Nat
  username : Option String
deriving DecidableEq, Repr

/-- The `case 'auth'` handler: bind `empId`/`userId`/`username` onto the
connection (`ws.userId = data.userId || null`), then — only when the bound
`empId` is truthy — broadcast an `online` presence frame to every registered
connection with an `OPEN` transport. -/
def handleAuth (conns : List Conn) (ws : Conn) (d : AuthData) :
    Conn × List Act :=
  let ws1 : Conn := { ws with
    empId := d.empId,
    userId := if truthyN d.userId then d.userId else none,
    username := d.username }
  let acts :=
    if truthyS ws1.empId then
      globalActs conns
        (Frame.userStatus (ws1.empId.getD "") ws1.username "online" false false)
    else []
  (ws1, acts)

/-- Inbound `join` frame fields read by the handler. -/
structure JoinData where
  channelId : Option String
  patientId : Option String
  username : Option String
deriving DecidableEq, Repr

/-- The system-message content `` `${data.username} has joined the channel` ``. -/
def joinContent (username : Option String) : String :=
  jsShow username ++ " has joined the channel"

/-- The `case 'join'` handler: set `ws.channelId` and append the connection to
the channel's member array (no required-field check is performed); send the
channel history as one `history` frame; if the supplied `patientId` resolves
to a patient, send its status updates as one `statusUpdates` frame; broadcast
the join `system` message to the channel's members; finally persist an
equivalent system message (result ignored). -/
def handleJoin (store : Storage) (conns : List Conn) (channels : ChanMap)
    (ws : Conn) (d : JoinData) : Conn × ChanMap × List Act :=
  let ws1 := { ws with channelId := d.channelId }
  let channels1 := chanPush channels d.channelId ws.id
  let histAct := Act.send ws.id (Frame.history (getChannelMessages store d.channelId))
  let statusActs :=
    if getPatientById store d.patientId then
      [Act.send ws.id (Frame.statusUpdates (getStatusUpdates store d.patientId))]
    else []
  let content := joinContent d.username
  let sysActs := broadcast conns channels1 d.channelId (Frame.system d.channelId content)
  let persistAct := Act.persistMsg d.channelId
    { mtype := "system", senderId := persistSender ws,
      content := some content, attachments := none }
  (ws1, channels1, histAct :: statusActs ++ sysActs ++ [persistAct])

/-- Inbound `message`/`attachment` frame fields; `senderId` may be present on
the wire but is never read by the handler. -/
structure MessageData where
  mtype : String
  channelId : Option String
  content : Option String
  attachments : Option (List IncomingAttachment)
  senderId : Option String
deriving DecidableEq, Repr

/-- Normalisation of one inbound attachment: missing `type` defaults to
`image`, missing `name` defaults to `file`. -/
def formatAttachment (a : IncomingAttachment) : Attachment :=
  { atype := a.atype.getD "image",
    url := a.url,
    name := a.name.getD "file",
    size := a.size,
    mimeType := a.mimeType,
    thumbnailUrl := a.thumbnailUrl }

/-- `attachments && attachments.length > 0 ? attachments.map(...) : undefined`. -/
def formatAttachments (atts : Option (List IncomingAttachment)) :
    Option (List Attachment) :=
  match atts with
  | some l => if !l.isEmpty then some (l.map formatAttachment) else none
  | none => none

/-- `data.type === 'attachment' || (attachments && attachments.length > 0)`. -/
def isAttachmentMsg (d : MessageData) : Bool :=
  d.mtype == "attachment" ||
    (match d.attachments with
     | some l => !l.isEmpty
     | none => false)

/-- The outbound `ChatMessage` object built by the `message`/`attachment`
handler. -/
def chatFrameOf (ws : Conn) (d : MessageData) : Frame :=
  Frame.chat (if isAttachmentMsg d then "attachment" else "message")
    d.channelId (wsIdentity ws) (jsOrD ws.username "Unknown User")
    d.content (formatAttachments d.attachments)

/-- The payload the `message`/`attachment` handler passes to
`storage.addMessageToChannel`. -/
def persistMsgOf (ws : Conn) (d : MessageData) : PersistMsg :=
  { mtype := if isAttachmentMsg d then "attachment" else "text",
    senderId := persistSender ws,
    content := d.content,
    attachments := formatAttachments d.attachments }

/-- The `case 'message'` / `case 'attachment'` handler: no-op unless the
connection has a bound identity (`empId` or legacy `userId`) and the frame
carries a truthy `channelId`; otherwise persist the normalised message
(awaiting the collaborator, whose possibly-`null` result is only logged) and
then broadcast the chat frame to the channel's members.  Returns the action
trace and the collaborator's result. -/
def handleMessage (ok : Bool) (conns : List Conn) (channels : ChanMap)
    (ws : Conn) (d : MessageData) (now : Nat) :
    List Act × Option StoredMessage :=
  if (!truthyS ws.empId && !truthyN ws.userId) || !truthyS d.channelId then
    ([], none)
  else
    let saved := addMessageToChannel ok d.channelId (persistMsgOf ws d) now
    (Act.persistMsg d.channelId (persistMsgOf ws d) ::
       broadcast conns channels d.channelId (chatFrameOf ws d),
     saved)

/-- Inbound `statusUpdate` frame fields; a wire `createdBy` is never read. -/
structure StatusData where
  patientId : Option String
  status : Option String
  location : Option String
  details : Option String
  createdBy : Option String
deriving DecidableEq, Repr

/-- The `case 'statusUpdate'` handler: no-op unless the connection has a bound
identity and the frame carries a truthy `patientId`; otherwise persist the
status update (createdBy taken from the connection), then, if a channel is
associated with the patient, broadcast a `statusUpdate` event to that
channel's members only. -/
def handleStatusUpdate (store : Storage) (conns : List Conn)
    (channels : ChanMap) (ws : Conn) (d : StatusData) : List Act :=
  if (!truthyS ws.empId && !truthyN ws.userId) || !truthyS d.patientId then []
  else
    let pid := d.patientId.getD ""
    let persistAct := Act.persistStatus
      { patientId := pid, status := d.status, createdBy := persistSender ws,
        location := d.location, details := d.details }
    match getChannelByPatientId store pid with
    | some ch =>
        persistAct :: broadcast conns channels (some ch)
          (Frame.statusUpdateEvt pid d.status (wsIdentity ws)
            (jsOrD ws.username "Unknown User"))
    | none => [persistAct]

/-- Inbound `callInvitation` frame fields. -/
structure CallInvData where
  channelId : Option String
  callType : Option String
  targetUserId : Option String
  inviterId : Option String
  inviterName : Option String
deriving DecidableEq, Repr

/-- The identity-matching test of the `callInvitation` scan: the client's
transport is `OPEN` and either its truthy `empId` strictly equals the target
id, or its stringified legacy `userId` equals the stringified target. -/
def matchesTarget (target : String) (c : Conn) : Bool :=
  c.isOpenConn &&
    ((truthyS c.empId && c.empId.getD "" == target) ||
     (match c.userId with
      | some u => toString u == target
      | none => false))

/-- The `wss.clients.forEach` scan overwrites `targetClient` on every match,
so the last matching registered connection wins. -/
def findTargetLast (conns : List Conn) (target : String) : Option Conn :=
  conns.foldl (fun acc c => if matchesTarget target c then some c else acc) none

/-- `inviterId || ws.empId || (ws.userId ? ws.userId.toString() : '0')` — the
inviter identity stamped on the forwarded invitation, preferring the inbound
frame's field over the bound identity. -/
def inviterIdOf (ws : Conn) (d : CallInvData) : String :=
  if truthyS d.inviterId then d.inviterId.getD "" else wsIdentity ws

/-- `inviterName || ws.username` (frame field preferred). -/
def inviterNameOf (ws : Conn) (d : CallInvData) : Option String :=
  if truthyS d.inviterName then d.inviterName else ws.username

/-- The `case 'callInvitation'` handler: no-op when `channelId` or
`targetUserId` is missing (the derived sender id can never be falsy); resolve
the target by scanning all registered connections; if one matches, send the
invitation frame to that connection only; if none matches, send nothing to
anyone — the inviter gets no failure notification. -/
def handleCallInvitation (conns : List Conn) (ws : Conn) (d : CallInvData) :
    List Act :=
  if inviterIdOf ws d == "" || !truthyS d.channelId || !truthyS d.targetUserId then
    []
  else
    match findTargetLast conns (d.targetUserId.getD "") with
    | some tc =>
        [Act.send tc.id (Frame.callInvitation d.channelId d.callType
          (inviterIdOf ws d) (jsOrD (inviterNameOf ws d) "Unknown User"))]
    | none => []

/-- Inbound `callSignal` frame fields; a wire `callerId` is never read. -/
structure CallSignalData where
  channelId : Option String
  callType : Option String
  action : Option String
  targetUsers : Option (List String)
  callerId : Option String
deriving DecidableEq, Repr

/-- `client.empId || (client.userId ? client.userId.toString() : null)`. -/
def clientIdOf (c : Conn) : Option String :=
  if truthyS c.empId then c.empId
  else if truthyN c.userId then some (toString (c.userId.getD 0))
  else none

/-- The `case 'callSignal'` handler: no-op unless the connection has a bound
identity and a truthy `channelId`; with a non-empty `targetUsers` list, send
the call frame only to channel members whose identity is listed; otherwise
broadcast it to the whole channel. -/
def handleCallSignal (conns : List Conn) (channels : ChanMap) (ws : Conn)
    (d : CallSignalData) : List Act :=
  if (!truthyS ws.empId && !truthyN ws.userId) || !truthyS d.channelId then []
  else
    let callMessage := Frame.callSignal d.channelId (wsIdentity ws)
      (jsOrD ws.username "Unknown User") d.callType d.action
    match d.targetUsers with
    | some ts =>
        if !ts.isEmpty then
          (chanGet channels d.channelId).filterMap (fun cid =>
            match findConn conns cid with
            | some c =>
                if c.isOpenConn && (clientIdOf c).isSome &&
                    ts.contains ((clientIdOf c).getD "") then
                  some (Act.send cid callMessage)
                else none
            | none => none)
        else broadcast conns channels d.channelId callMessage
    | none => broadcast conns channels d.channelId callMessage

/-- The `offline` presence frame the close handler broadcasts. -/
def offlineFrameOf (ws : Conn) : Frame :=
  Frame.userStatus (wsIdentity ws) (some (jsOrD ws.username "Unknown User"))
    "offline" false true

/-- The system-message content `` `${ws.username} has left the channel` ``. -/
def leaveContent (username : Option String) : String :=
  jsShow username ++ " has left the channel"

/-- The `ws.on('close')` handler: if the connection has a bound identity,
broadcast the `offline` presence frame (with `lastSeen`) to every registered
connection; then, only if the connection has both a truthy `channelId` and a
truthy `username`, remove its first member entry from that channel, broadcast
the leave `system` message, and persist it (result ignored). -/
def handleClose (conns : List Conn) (channels : ChanMap) (ws : Conn) :
    ChanMap × List Act :=
  let offlineActs :=
    if truthyS ws.empId || truthyN ws.userId then
      globalActs conns (offlineFrameOf ws)
    else []
  if truthyS ws.channelId && truthyS ws.username then
    let channels1 := chanRemoveFirst channels ws.channelId ws.id
    let content := leaveContent ws.username
    let sysActs := broadcast conns channels1 ws.channelId
      (Frame.system ws.channelId content)
    let persistAct := Act.persistMsg ws.channelId
      { mtype := "system", senderId := persistSender ws,
        content := some content, attachments := none }
    (channels1, offlineActs ++ sysActs ++ [persistAct])
  else (channels, offlineActs)

/-- The liveness sweep (`heartbeat`, run every 30 seconds): a connection whose
`isAlive` flag is `false` is terminated (and leaves the registry); otherwise
its flag is cleared and a ping is sent. -/
def heartbeat (conns : List Conn) : List Conn × List Act :=
  (conns.filterMap (fun c =>
     if c.isAlive == false then none else some { c with isAlive := false }),
   conns.map (fun c =>
     if c.isAlive == false then Act.terminate c.id else Act.ping c.id))

/-- The `pong` listener: reset the liveness flag. -/
def handlePong (c : Conn) : Conn :=
  { c with isAlive := true }

/-- One connection's liveness cell across sweeps, in the absence of pongs:
`some flag` is a live connection with that `isAlive` value, `none` is a
terminated one.  Each sweep terminates a flag-`false` connection and clears a
flag-`true` one, exactly as `heartbeat` does. -/
def sweepState : Option Bool → Option Bool
  | some false => none
  | some true => some false
  | none => none

/-! ### Auxiliary lemmas about the embedded operations -/

theorem toDigitsCore_ne_nil (b : Nat) :
    ∀ (fuel n : Nat) (ds : List Char), fuel ≠ 0 ∨ ds ≠ [] →
      Nat.toDigitsCore b fuel n ds ≠ [] := by
  intro fuel
  induction fuel with
  | zero =>
      intro n ds h
      simp only [Nat.toDigitsCore]
      exact h.resolve_left (by simp)
  | succ f ih =>
      intro n ds _
      simp only [Nat.toDigitsCore]
      split
      · simp
      · exact ih _ _ (Or.inr (by simp))

theorem natToString_ne_empty (n : Nat) : toString n ≠ "" := by
  show Nat.repr n ≠ ""
  unfold Nat.repr Nat.toDigits
  intro h
  apply toDigitsCore_ne_nil 10 (n + 1) n [] (Or.inl (by simp))
  have h2 : (Nat.toDigitsCore 10 (n + 1) n []).asString = "" := h
  simpa [List.asString, String.ext_iff] using h2

/-- The identity string stamped on outbound frames is never empty on any
branch of `ws.empId || (ws.userId ? ws.userId.toString() : '0')`. -/
theorem wsIdentity_ne_empty (ws : Conn) : wsIdentity ws ≠ "" := by
  unfold wsIdentity
  split
  · rename_i h
    match hws : ws.empId with
    | none => rw [hws] at h; simp [truthyS] at h
    | some s =>
        rw [hws] at h
        simp only [truthyS, Bool.not_eq_true', beq_eq_false_iff_ne] at h
        simpa using h
  · split
    · exact natToString_ne_empty _
    · simp

theorem inviterIdOf_ne_empty (ws : Conn) (d : CallInvData) :
    inviterIdOf ws d ≠ "" := by
  unfold inviterIdOf
  split
  · rename_i h
    match hd : d.inviterId with
    | none => rw [hd] at h; simp [truthyS] at h
    | some s =>
        rw [hd] at h
        simp only [truthyS, Bool.not_eq_true', beq_eq_false_iff_ne] at h
        simpa using h
  · exact wsIdentity_ne_empty ws

instance : IsTotal StoredMessage (fun a b => a.createdAt ≤ b.createdAt) :=
  ⟨fun a b => Nat.le_total a.createdAt b.createdAt⟩

instance : IsTrans StoredMessage (fun a b => a.createdAt ≤ b.createdAt) :=
  ⟨fun _ _ _ h1 h2 => Nat.le_trans h1 h2⟩

instance : IsTotal StatusRec (fun a b => b.createdAt ≤ a.createdAt) :=
  ⟨fun a b => Nat.le_total b.createdAt a.createdAt⟩

instance : IsTrans StatusRec (fun a b => b.createdAt ≤ a.createdAt) :=
  ⟨fun _ _ _ h1 h2 => Nat.le_trans h2 h1⟩

/-- Resolving a channel key against a `cons` directory. -/
theorem chanGet_cons (p : Option String × List Nat) (m : ChanMap)
    (k : Option String) :
    chanGet (p :: m) k = if p.1 == k then p.2 else chanGet m k := by
  by_cases h : p.1 == k <;> simp [chanGet, List.find?_cons, h]

/-- Pushing a member onto a channel appends it to that channel's list. -/
theorem chanGet_chanPush_same (m : ChanMap) (k : Option String) (cid : Nat) :
    chanGet (chanPush m k cid) k = chanGet m k ++ [cid] := by
  induction m with
  | nil => simp [chanPush, chanGet]
  | cons p m ih =>
      by_cases h : p.1 == k
      · simp [chanPush, h, chanGet_cons]
      · simp [chanPush, h, chanGet_cons, ih]

/-- Pushing a member onto one channel leaves every other channel's list
unchanged. -/
theorem chanGet_chanPush_other (m : ChanMap) (k k' : Option String)
    (cid : Nat) (hne : k' ≠ k) :
    chanGet (chanPush m k' cid) k = chanGet m k := by
  have hne' : (k' == k) = false := beq_eq_false_iff_ne.mpr hne
  induction m with
  | nil => simp [chanPush, chanGet, hne']
  | cons p m ih =>
      by_cases h : p.1 == k'
      · have hpk : (p.1 == k) = false := by
          rw [eq_of_beq h]; exact hne'
        simp [chanPush, h, chanGet_cons, hpk, hne']
      · simp [chanPush, h, chanGet_cons, ih]

/-- Removing a member from one channel leaves every other channel's list
unchanged. -/
theorem chanGet_chanRemoveFirst_other (m : ChanMap) (k k' : Option String)
    (cid : Nat) (hne : k' ≠ k) :
    chanGet (chanRemoveFirst m k' cid) k = chanGet m k := by
  induction m with
  | nil => simp [chanRemoveFirst, chanGet]
  | cons p m ih =>
      by_cases h : p.1 == k'
      · have hpk : (p.1 == k) = false := by
          rw [eq_of_beq h]; exact beq_eq_false_iff_ne.mpr hne
        simp [chanRemoveFirst, h, chanGet_cons, hpk]
      · simp [chanRemoveFirst, h, chanGet_cons, ih]

/-- Counting deliveries of a frame to one connection across a channel
broadcast: one `send` per member-list occurrence when the transport is open,
none otherwise. -/
theorem count_send_filterMap (conns : List Conn) (f : Frame) (i : Nat) :
    ∀ l : List Nat,
      (l.filterMap (fun cid =>
        if isOpen conns cid then some (Act.send cid f) else none)).count
          (Act.send i f) =
        if isOpen conns i then l.count i else 0 := by
  intro l
  induction l with
  | nil => by_cases h : isOpen conns i <;> simp [h]
  | cons a l ih =>
      by_cases ha : isOpen conns a
      · by_cases hai : a = i
        · subst hai
          simp [List.filterMap_cons, ha, List.count_cons, ih]
        · have : (Act.send a f == Act.send i f) = false := by
            simp [hai]
          simp [List.filterMap_cons, ha, List.count_cons, ih, this, hai]
      · have ha' : isOpen conns a = false := eq_false_of_ne_true ha
        by_cases hai : a = i
        · subst hai
          simp [List.filterMap_cons, ha', ih]
        · simp [List.filterMap_cons, ha', List.count_cons, ih, hai]

theorem count_send_broadcast (conns : List Conn) (channels : ChanMap)
    (k : Option String) (f : Frame) (i : Nat) :
    (broadcast conns channels k f).count (Act.send i f) =
      if isOpen conns i then (chanGet channels k).count i else 0 :=
  count_send_filterMap conns f i (chanGet channels k)

/-- An open member receives every broadcast to its channel. -/
theorem send_mem_broadcast (conns : List Conn) (channels : ChanMap)
    (k : Option String) (f : Frame) (i : Nat)
    (hopen : isOpen conns i = true) (hmem : i ∈ chanGet channels k) :
    Act.send i f ∈ broadcast conns channels k f := by
  unfold broadcast
  exact List.mem_filterMap.mpr ⟨i, hmem, by simp [hopen]⟩

/-- Every action a channel broadcast produces is a `send` of the broadcast
frame itself. -/
theorem mem_broadcast_shape (conns : List Conn) (channels : ChanMap)
    (k : Option String) (f : Frame) (a : Act)
    (h : a ∈ broadcast conns channels k f) : ∃ i, a = Act.send i f := by
  unfold broadcast at h
  obtain ⟨i, -, hi⟩ := List.mem_filterMap.mp h
  by_cases ho : isOpen conns i
  · rw [if_pos ho] at hi
    exact ⟨i, (Option.some.inj hi).symm⟩
  · rw [if_neg ho] at hi
    cases hi

/-- The `forEach` scan that keeps overwriting its result returns `none`
exactly when nothing matches. -/
theorem foldl_lastMatch_none (p : Conn → Bool) :
    ∀ (l : List Conn) (acc : Option Conn),
      (l.foldl (fun a c => if p c then some c else a) acc = none ↔
        acc = none ∧ ∀ c ∈ l, p c = false) := by
  intro l
  induction l with
  | nil => simp
  | cons x l ih =>
      intro acc
      by_cases hx : p x
      · simp only [List.foldl_cons, hx, if_true]
        constructor
        · intro h
          rcases (ih _).mp h with ⟨hsome, _⟩
          exact absurd hsome (by simp)
        · rintro ⟨-, hall⟩
          exact absurd (hall x (by simp)) (by simp [hx])
      · simp only [List.foldl_cons, hx, if_false, ih]
        constructor
        · rintro ⟨ha, hall⟩
          refine ⟨ha, ?_⟩
          intro c hc
          rcases List.mem_cons.mp hc with h | h
          · subst h; simpa using hx
          · exact hall c h
        · rintro ⟨ha, hall⟩
          exact ⟨ha, fun c hc => hall c (List.mem_cons_of_mem _ hc)⟩

/-- When the overwriting scan returns a connection, that connection is a
matching member of the scanned list (or was the seed). -/
theorem foldl_lastMatch_some (p : Conn → Bool) :
    ∀ (l : List Conn) (acc : Option Conn) (c : Conn),
      l.foldl (fun a c => if p c then some c else a) acc = some c →
      (c ∈ l ∧ p c = true) ∨ acc = some c := by
  intro l
  induction l with
  | nil => intro acc c h; exact Or.inr h
  | cons x l ih =>
      intro acc c h
      simp only [List.foldl_cons] at h
      by_cases hx : p x
      · rw [if_pos hx] at h
        rcases ih _ _ h with ⟨hm, hp⟩ | hacc
        · exact Or.inl ⟨List.mem_cons_of_mem _ hm, hp⟩
        · have : x = c := by simpa using hacc
          subst this
          exact Or.inl ⟨by simp, hx⟩
      · rw [if_neg hx] at h
        rcases ih _ _ h with ⟨hm, hp⟩ | hacc
        · exact Or.inl ⟨List.mem_cons_of_mem _ hm, hp⟩
        · exact Or.inr hacc

theorem findTargetLast_none_iff (conns : List Conn) (t : String) :
    findTargetLast conns t = none ↔
      ∀ c ∈ conns, matchesTarget t c = false := by
  unfold findTargetLast
  rw [foldl_lastMatch_none]
  simp

theorem findTargetLast_some (conns : List Conn) (t : String) (c : Conn)
    (h : findTargetLast conns t = some c) :
    c ∈ conns ∧ matchesTarget t c = true := by
  unfold findTargetLast at h
  rcases foldl_lastMatch_some (matchesTarget t) conns none c h with hok | hbad
  · exact hok
  · cases hbad

/-- The shared guard shape `(!a && !b) || !c` of the identity/required-field
checks is false when an identity is bound and the field is truthy. -/
theorem guardFalse {a b c : Bool} (hab : (a || b) = true) (hc : c = true) :
    ((!a && !b) || !c) = false := by
  cases a <;> cases b <;> cases c <;> simp_all

/-! ## C1 -/

/-- C1: for every `message`/`attachment` event from a connection with a bound
identity and a truthy `channelId`, the router's trace is the persistence call
first (awaited), then exactly the broadcast of the chat frame to the channel's
members — and the trace is the same for every outcome of the persistence
collaborator, which on failure hands the call site the `none` sentinel. -/
theorem c1_persist_then_broadcast (conns : List Conn) (channels : ChanMap)
    (ws : Conn) (d : MessageData) (now : Nat)
    (hid : (truthyS ws.empId || truthyN ws.userId) = true)
    (hch : truthyS d.channelId = true) :
    (∀ ok : Bool, (handleMessage ok conns channels ws d now).1 =
       Act.persistMsg d.channelId (persistMsgOf ws d) ::
         broadcast conns channels d.channelId (chatFrameOf ws d)) ∧
    (handleMessage false conns channels ws d now).2 = none := by
  have hg := guardFalse hid hch
  constructor
  · intro ok
    simp [handleMessage, hg]
  · simp [handleMessage, hg, addMessageToChannel]

/-- Witness for C1 at a concrete bound connection and channel. -/
theorem c1_witness :
    (handleMessage false [⟨1, some "e1", none, some "Dr", none, true, true⟩]
        [(some "C1", [1])] ⟨1, some "e1", none, some "Dr", none, true, true⟩
        ⟨"message", some "C1", some "hello", none, none⟩ 0).1 =
      [Act.persistMsg (some "C1") ⟨"text", some "e1", some "hello", none⟩,
       Act.send 1 (Frame.chat "message" (some "C1") "e1" "Dr" (some "hello")
         none)] ∧
    (handleMessage false [⟨1, some "e1", none, some "Dr", none, true, true⟩]
        [(some "C1", [1])] ⟨1, some "e1", none, some "Dr", none, true, true⟩
        ⟨"message", some "C1", some "hello", none, none⟩ 0).2 = none := by
  have h := c1_persist_then_broadcast
    [⟨1, some "e1", none, some "Dr", none, true, true⟩] [(some "C1", [1])]
    ⟨1, some "e1", none, some "Dr", none, true, true⟩
    ⟨"message", some "C1", some "hello", none, none⟩ 0 (by decide) (by decide)
  refine ⟨?_, h.2⟩
  rw [h.1 false]
  decide

/-! ## C2 -/

/-- C2: for every `join` event, the joining connection's trace is, in order:
one `history` frame holding the channel's persisted messages sorted
oldest-first (a permutation of exactly the channel's documents), then —
exactly when the supplied `patientId` resolves to a patient — one
`statusUpdates` frame holding that patient's updates sorted newest-first
(a permutation of exactly the patient's documents), then the
`"<username> has joined the channel"` system broadcast to the channel's
members (the joiner now among them), and finally the persistence of the
join message. -/
theorem c2_join_replay (store : Storage) (conns : List Conn)
    (channels : ChanMap) (ws : Conn) (d : JoinData) :
    (handleJoin store conns channels ws d).2.2 =
      Act.send ws.id (Frame.history (getChannelMessages store d.channelId)) ::
      ((if getPatientById store d.patientId then
          [Act.send ws.id
            (Frame.statusUpdates (getStatusUpdates store d.patientId))]
        else []) ++
       (broadcast conns (chanPush channels d.channelId ws.id) d.channelId
          (Frame.system d.channelId (joinContent d.username)) ++
        [Act.persistMsg d.channelId
           ⟨"system", persistSender ws, some (joinContent d.username), none⟩])) ∧
    List.Sorted (fun a b => a.createdAt ≤ b.createdAt)
      (getChannelMessages store d.channelId) ∧
    List.Perm (getChannelMessages store d.channelId)
      (store.messages.filter (fun m => m.channelId == d.channelId)) ∧
    (∀ p, d.patientId = some p →
      List.Sorted (fun a b => b.createdAt ≤ a.createdAt)
        (getStatusUpdates store d.patientId) ∧
      List.Perm (getStatusUpdates store d.patientId)
        (store.statusUpdates.filter (fun u => u.patientId == p))) := by
  refine ⟨?_, List.sorted_insertionSort _ _, List.perm_insertionSort _ _, ?_⟩
  · by_cases hpat : getPatientById store d.patientId = true
    · simp [handleJoin, hpat]
    · have hpat2 : getPatientById store d.patientId = false :=
        eq_false_of_ne_true hpat
      simp [handleJoin, hpat2]
  · intro p hp
    rw [hp]
    exact ⟨List.sorted_insertionSort _ _, List.perm_insertionSort _ _⟩

/-- Witness for C2, both ways: with a resolving `patientId` a two-message
channel is replayed oldest-first and a two-update patient newest-first before
the join broadcast; with no `patientId` the history frame is immediately
followed by the join broadcast, no `statusUpdates` frame in between. -/
theorem c2_witness :
    (handleJoin
      ⟨[⟨"text", some "C1", some "e1", some "m2", none, 2⟩,
        ⟨"text", some "C1", some "e1", some "m1", none, 1⟩],
       ["P1"],
       [⟨"P1", some "s1", some "e1", none, none, 1⟩,
        ⟨"P1", some "s2", some "e1", none, none, 2⟩],
       []⟩
      [⟨1, some "e1", none, some "Dr", none, true, true⟩] []
      ⟨1, some "e1", none, some "Dr", none, true, true⟩
      ⟨some "C1", some "P1", some "Dr"⟩).2.2 =
      [Act.send 1 (Frame.history
         [⟨"text", some "C1", some "e1", some "m1", none, 1⟩,
          ⟨"text", some "C1", some "e1", some "m2", none, 2⟩]),
       Act.send 1 (Frame.statusUpdates
         [⟨"P1", some "s2", some "e1", none, none, 2⟩,
          ⟨"P1", some "s1", some "e1", none, none, 1⟩]),
       Act.send 1 (Frame.system (some "C1") "Dr has joined the channel"),
       Act.persistMsg (some "C1")
         ⟨"system", some "e1", some "Dr has joined the channel", none⟩] ∧
    (handleJoin
      ⟨[⟨"text", some "C1", some "e1", some "m2", none, 2⟩,
        ⟨"text", some "C1", some "e1", some "m1", none, 1⟩],
       ["P1"],
       [⟨"P1", some "s1", some "e1", none, none, 1⟩,
        ⟨"P1", some "s2", some "e1", none, none, 2⟩],
       []⟩
      [⟨1, some "e1", none, some "Dr", none, true, true⟩] []
      ⟨1, some "e1", none, some "Dr", none, true, true⟩
      ⟨some "C1", none, some "Dr"⟩).2.2 =
      [Act.send 1 (Frame.history
         [⟨"text", some "C1", some "e1", some "m1", none, 1⟩,
          ⟨"text", some "C1", some "e1", some "m2", none, 2⟩]),
       Act.send 1 (Frame.system (some "C1") "Dr has joined the channel"),
       Act.persistMsg (some "C1")
         ⟨"system", some "e1", some "Dr has joined the channel", none⟩] := by
  have h1 := c2_join_replay
    ⟨[⟨"text", some "C1", some "e1", some "m2", none, 2⟩,
      ⟨"text", some "C1", some "e1", some "m1", none, 1⟩],
     ["P1"],
     [⟨"P1", some "s1", some "e1", none, none, 1⟩,
      ⟨"P1", some "s2", some "e1", none, none, 2⟩],
     []⟩
    [⟨1, some "e1", none, some "Dr", none, true, true⟩] []
    ⟨1, some "e1", none, some "Dr", none, true, true⟩
    ⟨some "C1", some "P1", some "Dr"⟩
  have h2 := c2_join_replay
    ⟨[⟨"text", some "C1", some "e1", some "m2", none, 2⟩,
      ⟨"text", some "C1", some "e1", some "m1", none, 1⟩],
     ["P1"],
     [⟨"P1", some "s1", some "e1", none, none, 1⟩,
      ⟨"P1", some "s2", some "e1", none, none, 2⟩],
     []⟩
    [⟨1, some "e1", none, some "Dr", none, true, true⟩] []
    ⟨1, some "e1", none, some "Dr", none, true, true⟩
    ⟨some "C1", none, some "Dr"⟩
  exact ⟨by rw [h1.1]; decide, by rw [h2.1]; decide⟩
/-! ## C3 -/

/-- Counterexample to C3 as stated: an inbound frame of type `attachment`
carrying no attachments has an empty normalised attachment sequence, yet both
the outbound frame and the persisted document are classified `attachment` —
so "type is `attachment` exactly when the normalised sequence is non-empty"
fails in the only-if direction. -/
theorem c3_counterexample :
    formatAttachments
      (MessageData.attachments ⟨"attachment", some "C1", some "hi", none, none⟩)
      = none ∧
    (handleMessage true [⟨1, some "e1", none, some "Dr", none, true, true⟩]
        [(some "C1", [1])] ⟨1, some "e1", none, some "Dr", none, true, true⟩
        ⟨"attachment", some "C1", some "hi", none, none⟩ 5).1 =
      [Act.persistMsg (some "C1") ⟨"attachment", some "e1", some "hi", none⟩,
       Act.send 1 (Frame.chat "attachment" (some "C1") "e1" "Dr" (some "hi")
         none)] ∧
    (handleMessage true [⟨1, some "e1", none, some "Dr", none, true, true⟩]
        [(some "C1", [1])] ⟨1, some "e1", none, some "Dr", none, true, true⟩
        ⟨"attachment", some "C1", some "hi", none, none⟩ 5).2 =
      some ⟨"attachment", some "C1", some "e1", some "hi", none, 5⟩ := by
  decide

/-- C3 amended: missing attachment fields default to `image`/`file`, and the
outbound/persisted message type is `attachment` exactly when the inbound type
is `attachment` OR the inbound attachment sequence is non-empty (else
`message` outbound / `text` persisted). -/
theorem c3_classification (ws : Conn) (d : MessageData) (now : Nat) :
    (isAttachmentMsg d = true ↔
      d.mtype = "attachment" ∨ ∃ l, d.attachments = some l ∧ l ≠ []) ∧
    (∀ a : IncomingAttachment, formatAttachment a =
      ⟨a.atype.getD "image", a.url, a.name.getD "file", a.size, a.mimeType,
        a.thumbnailUrl⟩) ∧
    chatFrameOf ws d =
      Frame.chat (if isAttachmentMsg d then "attachment" else "message")
        d.channelId (wsIdentity ws) (jsOrD ws.username "Unknown User")
        d.content (formatAttachments d.attachments) ∧
    (persistMsgOf ws d).mtype =
      (if isAttachmentMsg d then "attachment" else "text") ∧
    addMessageToChannel true d.channelId (persistMsgOf ws d) now =
      some ⟨if isAttachmentMsg d then "attachment" else "text", d.channelId,
        persistSender ws, d.content, formatAttachments d.attachments, now⟩ := by
  refine ⟨?_, ?_, rfl, rfl, ?_⟩
  · simp only [isAttachmentMsg, Bool.or_eq_true, beq_iff_eq]
    constructor
    · rintro (h | h)
      · exact Or.inl h
      · match hatt : d.attachments with
        | none => rw [hatt] at h; cases h
        | some l =>
            rw [hatt] at h
            refine Or.inr ⟨l, rfl, ?_⟩
            simpa using h
    · rintro (h | ⟨l, hl, hne⟩)
      · exact Or.inl h
      · rw [hl]
        exact Or.inr (by simpa using hne)
  · intro a
    rfl
  · unfold addMessageToChannel persistMsgOf formatAttachments isAttachmentMsg
    match hatt : d.attachments with
    | none => by_cases hm : d.mtype = "attachment" <;> simp [hm]
    | some l =>
        match l with
        | [] => by_cases hm : d.mtype = "attachment" <;> simp [hm]
        | a :: l => simp

/-! ## C4 -/

/-- C5: for every `callInvitation` carrying a truthy `channelId` and
`targetUserId`, if some registered connection matches the target identity
(by `empId` or stringified legacy numeric id, over an open transport), the
handler's whole trace is exactly one `callInvitation` frame to the resolved
matching connection — nothing to anyone else; if no connection matches, the
trace is empty — no frame to anyone, the inviter included. -/
theorem c5_call_invitation (conns : List Conn) (ws : Conn) (d : CallInvData)
    (hch : truthyS d.channelId = true) (htg : truthyS d.targetUserId = true) :
    ((∃ c ∈ conns, matchesTarget (d.targetUserId.getD "") c = true) →
      ∃ tc, findTargetLast conns (d.targetUserId.getD "") = some tc ∧
        tc ∈ conns ∧ matchesTarget (d.targetUserId.getD "") tc = true ∧
        handleCallInvitation conns ws d =
          [Act.send tc.id (Frame.callInvitation d.channelId d.callType
            (inviterIdOf ws d) (jsOrD (inviterNameOf ws d) "Unknown User"))]) ∧
    ((∀ c ∈ conns, matchesTarget (d.targetUserId.getD "") c = false) →
      handleCallInvitation conns ws d = []) := by
  have h1 : (inviterIdOf ws d == "") = false :=
    beq_eq_false_iff_ne.mpr (inviterIdOf_ne_empty ws d)
  constructor
  · rintro ⟨c, hc, hmatch⟩
    cases hft : findTargetLast conns (d.targetUserId.getD "") with
    | none =>
        exfalso
        have h2 := (findTargetLast_none_iff conns _).mp hft c hc
        rw [hmatch] at h2
        cases h2
    | some tc =>
        obtain ⟨hmem, hm⟩ := findTargetLast_some _ _ _ hft
        refine ⟨tc, rfl, hmem, hm, ?_⟩
        simp [handleCallInvitation, h1, hch, htg, hft]
  · intro hall
    have hft : findTargetLast conns (d.targetUserId.getD "") = none :=
      (findTargetLast_none_iff conns _).mpr hall
    simp [handleCallInvitation, h1, hch, htg, hft]

/-- Witness for C5: with the target connected the invitation goes to that
connection only; with the target absent nobody (the inviter included)
receives anything. -/
theorem c5_witness :
    handleCallInvitation
      [⟨1, some "e1", none, some "Dr", none, true, true⟩,
       ⟨2, some "n1", none, some "Nurse", none, true, true⟩]
      ⟨1, some "e1", none, some "Dr", none, true, true⟩
      ⟨some "C1", some "voice", some "n1", none, none⟩ =
      [Act.send 2 (Frame.callInvitation (some "C1") (some "voice") "e1" "Dr")] ∧
    handleCallInvitation [⟨1, some "e1", none, some "Dr", none, true, true⟩]
      ⟨1, some "e1", none, some "Dr", none, true, true⟩
      ⟨some "C1", some "voice", some "n1", none, none⟩ = [] := by
  have h := c5_call_invitation
    [⟨1, some "e1", none, some "Dr", none, true, true⟩,
     ⟨2, some "n1", none, some "Nurse", none, true, true⟩]
    ⟨1, some "e1", none, some "Dr", none, true, true⟩
    ⟨some "C1", some "voice", some "n1", none, none⟩ (by decide) (by decide)
  have h2 := c5_call_invitation
    [⟨1, some "e1", none, some "Dr", none, true, true⟩]
    ⟨1, some "e1", none, some "Dr", none, true, true⟩
    ⟨some "C1", some "voice", some "n1", none, none⟩ (by decide) (by decide)
  constructor
  · obtain ⟨tc, hft, -, -, htr⟩ := h.1
      ⟨⟨2, some "n1", none, some "Nurse", none, true, true⟩, by decide, by decide⟩
    have htc : tc = ⟨2, some "n1", none, some "Nurse", none, true, true⟩ := by
      have h3 : some tc =
          some (⟨2, some "n1", none, some "Nurse", none, true, true⟩ : Conn) := by
        rw [← hft]
        decide
      exact Option.some.inj h3
    rw [htr, htc]
    decide
  · exact h2.2 (by decide)

/-! ## C6 -/

/-- Is an action the delivery of a presence (`userStatus`) frame? -/
def isPresenceSend : Act → Bool
  | Act.send _ (Frame.userStatus _ _ _ _ _) => true
  | _ => false

/-- Counterexample to C6 as stated: an anonymous (never-authenticated)
connection whose liveness flag is false is terminated by the sweep, but its
close handler broadcasts nothing — no global `offline` presence event
accompanies the termination. -/
theorem c6_counterexample :
    heartbeat [⟨0, none, none, none, none, false, true⟩] =
      ([], [Act.terminate 0]) ∧
    handleClose [] [] ⟨0, none, none, none, none, false, false⟩ = ([], []) := by
  decide

/-- C6 amended: each sweep terminates every registered connection whose
liveness flag is false and clears-and-pings every other one (the flag being
reset by `pong`); a connection silent since time `t0` (with sweeps at
30-second marks, the last answered one at `30k < t0 ≤ 30(k+1)`) survives the
next sweep's ping and is terminated by the one after, at `30(k+2)`, i.e.
within strictly less than 60 seconds; the accompanying global `offline`
presence broadcast happens exactly when the closing connection has a bound
identity — an anonymous connection is terminated silently. -/
theorem c6_liveness (conns : List Conn) (c ws : Conn) (channels : ChanMap)
    (k t0 : Nat) (hc : c ∈ conns)
    (hlast : 30 * k < t0) (hnext : t0 ≤ 30 * (k + 1)) :
    (c.isAlive = false →
      Act.terminate c.id ∈ (heartbeat conns).2 ∧
      sweepState (some c.isAlive) = none) ∧
    (c.isAlive = true →
      Act.ping c.id ∈ (heartbeat conns).2 ∧
      { c with isAlive := false } ∈ (heartbeat conns).1 ∧
      sweepState (some c.isAlive) = some false) ∧
    (handlePong c).isAlive = true ∧
    sweepState (sweepState (some true)) = none ∧
    sweepState (some true) ≠ none ∧
    30 * (k + 2) - t0 < 60 ∧
    ((truthyS ws.empId || truthyN ws.userId) = true →
      ∃ rest, (handleClose conns channels ws).2 =
        globalActs conns (offlineFrameOf ws) ++ rest) ∧
    ((truthyS ws.empId || truthyN ws.userId) = false →
      ∀ a ∈ (handleClose conns channels ws).2, isPresenceSend a = false) := by
  refine ⟨?_, ?_, rfl, rfl, by simp [sweepState], by omega, ?_, ?_⟩
  · intro hdead
    refine ⟨?_, by rw [hdead]; rfl⟩
    unfold heartbeat
    simpa [hdead] using List.mem_map_of_mem
      (fun c => if c.isAlive == false then Act.terminate c.id else Act.ping c.id) hc
  · intro halive
    refine ⟨?_, ?_, by rw [halive]; rfl⟩
    · unfold heartbeat
      simpa [halive] using List.mem_map_of_mem
        (fun c => if c.isAlive == false then Act.terminate c.id else Act.ping c.id) hc
    · unfold heartbeat
      exact List.mem_filterMap.mpr ⟨c, hc, by simp [halive]⟩
  · intro hb
    by_cases hp : (truthyS ws.channelId && truthyS ws.username) = true
    · refine ⟨broadcast conns (chanRemoveFirst channels ws.channelId ws.id)
          ws.channelId (Frame.system ws.channelId (leaveContent ws.username)) ++
        [Act.persistMsg ws.channelId
          ⟨"system", persistSender ws, some (leaveContent ws.username), none⟩], ?_⟩
      simp [handleClose, hb, hp]
    · have hp' : (truthyS ws.channelId && truthyS ws.username) = false := by
        simpa using hp
      refine ⟨[], ?_⟩
      simp [handleClose, hb, hp']
  · intro hb a ha
    by_cases hp : (truthyS ws.channelId && truthyS ws.username) = true
    · simp [handleClose, hb, hp] at ha
      rcases ha with ha | rfl
      · obtain ⟨i, rfl⟩ := mem_broadcast_shape _ _ _ _ _ ha
        rfl
      · rfl
    · have hp' : (truthyS ws.channelId && truthyS ws.username) = false := by
        simpa using hp
      simp [handleClose, hb, hp'] at ha

/-- Witness for C6 at a concrete dead connection, an anonymous closing
connection, and the sweep timeline `k = 0`, `t0 = 10`. -/
theorem c6_witness :
    ((⟨7, none, none, none, none, false, true⟩ : Conn).isAlive = false →
      Act.terminate 7 ∈ (heartbeat [⟨7, none, none, none, none, false, true⟩]).2 ∧
      sweepState (some (⟨7, none, none, none, none, false, true⟩ : Conn).isAlive) = none) ∧
    ((⟨7, none, none, none, none, false, true⟩ : Conn).isAlive = true →
      Act.ping 7 ∈ (heartbeat [⟨7, none, none, none, none, false, true⟩]).2 ∧
      { (⟨7, none, none, none, none, false, true⟩ : Conn) with isAlive := false } ∈
        (heartbeat [⟨7, none, none, none, none, false, true⟩]).1 ∧
      sweepState (some (⟨7, none, none, none, none, false, true⟩ : Conn).isAlive) =
        some false) ∧
    (handlePong ⟨7, none, none, none, none, false, true⟩).isAlive = true ∧
    sweepState (sweepState (some true)) = none ∧
    sweepState (some true) ≠ none ∧
    30 * (0 + 2) - 10 < 60 ∧
    ((truthyS (Conn.empId ⟨8, none, none, none, some "C1", true, false⟩) ||
        truthyN (Conn.userId ⟨8, none, none, none, some "C1", true, false⟩)) = true →
      ∃ rest, (handleClose [⟨7, none, none, none, none, false, true⟩] []
          ⟨8, none, none, none, some "C1", true, false⟩).2 =
        globalActs [⟨7, none, none, none, none, false, true⟩]
          (offlineFrameOf ⟨8, none, none, none, some "C1", true, false⟩) ++ rest) ∧
    ((truthyS (Conn.empId ⟨8, none, none, none, some "C1", true, false⟩) ||
        truthyN (Conn.userId ⟨8, none, none, none, some "C1", true, false⟩)) = false →
      ∀ a ∈ (handleClose [⟨7, none, none, none, none, false, true⟩] []
          ⟨8, none, none, none, some "C1", true, false⟩).2,
        isPresenceSend a = false) :=
  c6_liveness [⟨7, none, none, none, none, false, true⟩]
    ⟨7, none, none, none, none, false, true⟩
    ⟨8, none, none, none, some "C1", true, false⟩ [] 0 10
    (by decide) (by decide) (by decide)

/-! ## C7 -/

/-- Counterexample to C7 as stated: a connection bound to `empId "e1"` sends a
`callInvitation` whose frame carries a conflicting `inviterId "evil"`; the
forwarded invitation stamps `"evil"`, not the bound identity `"e1"`. -/
theorem c7_counterexample :
    handleCallInvitation
      [⟨1, some "e1", none, some "Dr", none, true, true⟩,
       ⟨2, some "n1", none, some "Nurse", none, true, true⟩]
      ⟨1, some "e1", none, some "Dr", none, true, true⟩
      ⟨some "C1", some "voice", some "n1", some "evil", some "Mallory"⟩ =
      [Act.send 2
        (Frame.callInvitation (some "C1") (some "voice") "evil" "Mallory")] ∧
    wsIdentity ⟨1, some "e1", none, some "Dr", none, true, true⟩ = "e1" ∧
    ("evil" : String) ≠ "e1" := by
  decide

/-- C7 amended: the bound identity is authoritative for chat (`senderId`),
status updates (`createdBy`) and call signals (`callerId`) — those handlers
never read identity fields off the wire, so conflicting inbound values change
nothing and the emitted identities come from the connection — and rebinding
via another `auth` event is an idempotent overwrite; but the `callInvitation`
handler prefers the inbound frame's `inviterId`/`inviterName`, falling back
to the bound identity only when they are absent. -/
theorem c7_identity_authority (ok : Bool) (conns : List Conn)
    (channels : ChanMap) (store : Storage) (ws : Conn) (now : Nat)
    (dm : MessageData) (ds : StatusData) (dcs : CallSignalData)
    (dci : CallInvData) (da : AuthData) (x : Option String) :
    handleMessage ok conns channels ws { dm with senderId := x } now =
      handleMessage ok conns channels ws dm now ∧
    (persistMsgOf ws dm).senderId = persistSender ws ∧
    chatFrameOf ws dm =
      Frame.chat (if isAttachmentMsg dm then "attachment" else "message")
        dm.channelId (wsIdentity ws) (jsOrD ws.username "Unknown User")
        dm.content (formatAttachments dm.attachments) ∧
    handleStatusUpdate store conns channels ws { ds with createdBy := x } =
      handleStatusUpdate store conns channels ws ds ∧
    handleCallSignal conns channels ws { dcs with callerId := x } =
      handleCallSignal conns channels ws dcs ∧
    (truthyS dci.inviterId = true →
      inviterIdOf ws dci = dci.inviterId.getD "") ∧
    (truthyS dci.inviterId = false → inviterIdOf ws dci = wsIdentity ws) ∧
    (handleAuth conns (handleAuth conns ws da).1 da).1 =
      (handleAuth conns ws da).1 ∧
    (handleAuth conns ws da).1.empId = da.empId ∧
    (handleAuth conns ws da).1.username = da.username := by
  refine ⟨?_, rfl, rfl, ?_, ?_, ?_, ?_, ?_, rfl, rfl⟩
  · cases dm
    rfl
  · cases ds
    rfl
  · cases dcs
    rfl
  · intro h
    simp [inviterIdOf, h]
  · intro h
    simp [inviterIdOf, h]
  · cases ws
    rfl

/-! ## C8 -/

/-- C8: the channel directory's join is not idempotent — two `join` events
for the same channel from one connection, with no intervening leave, append
two entries for it to the member list, and a subsequent broadcast to that
channel therefore hands the very same frame to that (open) connection twice. -/
theorem c8_join_not_idempotent (store : Storage) (conns : List Conn)
    (channels : ChanMap) (ws : Conn) (d1 d2 : JoinData) (f : Frame)
    (hsame : d2.channelId = d1.channelId)
    (hopen : isOpen conns ws.id = true) :
    (chanGet (handleJoin store conns
        ((handleJoin store conns channels ws d1).2.1)
        ((handleJoin store conns channels ws d1).1) d2).2.1
      d1.channelId).count ws.id =
      (chanGet channels d1.channelId).count ws.id + 2 ∧
    (broadcast conns
        (handleJoin store conns ((handleJoin store conns channels ws d1).2.1)
          ((handleJoin store conns channels ws d1).1) d2).2.1
        d1.channelId f).count (Act.send ws.id f) =
      (chanGet channels d1.channelId).count ws.id + 2 := by
  have hch2 : (handleJoin store conns
      ((handleJoin store conns channels ws d1).2.1)
      ((handleJoin store conns channels ws d1).1) d2).2.1 =
      chanPush (chanPush channels d1.channelId ws.id) d2.channelId ws.id := rfl
  have hcount : (chanGet (chanPush (chanPush channels d1.channelId ws.id)
      d2.channelId ws.id) d1.channelId).count ws.id =
      (chanGet channels d1.channelId).count ws.id + 2 := by
    rw [hsame, chanGet_chanPush_same, chanGet_chanPush_same]
    simp [List.count_append]
  constructor
  · rw [hch2, hcount]
  · rw [count_send_broadcast, hopen, if_pos rfl, hch2, hcount]

/-- Witness for C8: a fresh channel joined twice holds the connection twice
and a broadcast reaches it twice. -/
theorem c8_witness :
    (chanGet (handleJoin ⟨[], [], [], []⟩
        [⟨1, some "e1", none, some "Dr", none, true, true⟩]
        ((handleJoin ⟨[], [], [], []⟩
          [⟨1, some "e1", none, some "Dr", none, true, true⟩] []
          ⟨1, some "e1", none, some "Dr", none, true, true⟩
          ⟨some "C1", none, some "Dr"⟩).2.1)
        ((handleJoin ⟨[], [], [], []⟩
          [⟨1, some "e1", none, some "Dr", none, true, true⟩] []
          ⟨1, some "e1", none, some "Dr", none, true, true⟩
          ⟨some "C1", none, some "Dr"⟩).1)
        ⟨some "C1", none, some "Dr"⟩).2.1 (some "C1")).count 1 = 2 ∧
    (broadcast [⟨1, some "e1", none, some "Dr", none, true, true⟩]
        (handleJoin ⟨[], [], [], []⟩
          [⟨1, some "e1", none, some "Dr", none, true, true⟩]
          ((handleJoin ⟨[], [], [], []⟩
            [⟨1, some "e1", none, some "Dr", none, true, true⟩] []
            ⟨1, some "e1", none, some "Dr", none, true, true⟩
            ⟨some "C1", none, some "Dr"⟩).2.1)
          ((handleJoin ⟨[], [], [], []⟩
            [⟨1, some "e1", none, some "Dr", none, true, true⟩] []
            ⟨1, some "e1", none, some "Dr", none, true, true⟩
            ⟨some "C1", none, some "Dr"⟩).1)
          ⟨some "C1", none, some "Dr"⟩).2.1
        (some "C1") (Frame.system (some "C1") "x")).count
      (Act.send 1 (Frame.system (some "C1") "x")) = 2 := by
  have h := c8_join_not_idempotent ⟨[], [], [], []⟩
    [⟨1, some "e1", none, some "Dr", none, true, true⟩] []
    ⟨1, some "e1", none, some "Dr", none, true, true⟩
    ⟨some "C1", none, some "Dr"⟩ ⟨some "C1", none, some "Dr"⟩
    (Frame.system (some "C1") "x") rfl (by decide)
  exact ⟨by rw [h.1]; decide, by rw [h.2]; decide⟩

/-! ## C9 -/

/-- Counterexample to C9 as stated: a connection that joined channel `C1`
without ever authenticating (no identity, no username) closes, and the close
handler does nothing — it stays in `C1`'s member list and no `offline`
presence event is broadcast. -/
theorem c9_counterexample :
    handleClose [] [(some "C1", [7])]
      ⟨7, none, none, none, some "C1", true, false⟩ =
      ([(some "C1", [7])], []) := by
  decide

/-- C9 amended: closing the transport triggers each of the registry's side
effects only under its own guard, in both directions.  With a bound identity
(`empId` or legacy `userId`) the trace opens with the global `offline`
presence broadcast (with `lastSeen`) to every open registered connection;
without one, no action of the trace delivers any presence frame.  With a
truthy `channelId` AND `username` the connection's first entry is removed
from its channel's member list and the leave `system` broadcast and its
persistence follow the (conditional) offline prefix; without both, the
directory is left untouched and the trace is exactly that conditional
offline prefix — so an unauthenticated connection is neither announced nor
pruned. -/
theorem c9_close_effects (conns : List Conn) (channels : ChanMap)
    (ws : Conn) :
    ((truthyS ws.empId || truthyN ws.userId) = true →
      ∃ rest, (handleClose conns channels ws).2 =
        globalActs conns (offlineFrameOf ws) ++ rest) ∧
    ((truthyS ws.empId || truthyN ws.userId) = false →
      ∀ a ∈ (handleClose conns channels ws).2, isPresenceSend a = false) ∧
    ((truthyS ws.channelId && truthyS ws.username) = true →
      (handleClose conns channels ws).1 =
        chanRemoveFirst channels ws.channelId ws.id ∧
      (handleClose conns channels ws).2 =
        (if (truthyS ws.empId || truthyN ws.userId) = true then
          globalActs conns (offlineFrameOf ws) else []) ++
        broadcast conns (chanRemoveFirst channels ws.channelId ws.id)
          ws.channelId (Frame.system ws.channelId (leaveContent ws.username)) ++
        [Act.persistMsg ws.channelId
           ⟨"system", persistSender ws, some (leaveContent ws.username),
             none⟩]) ∧
    ((truthyS ws.channelId && truthyS ws.username) = false →
      (handleClose conns channels ws).1 = channels ∧
      (handleClose conns channels ws).2 =
        (if (truthyS ws.empId || truthyN ws.userId) = true then
          globalActs conns (offlineFrameOf ws) else [])) := by
  refine ⟨?_, ?_, ?_, ?_⟩
  · intro hb
    by_cases hp : (truthyS ws.channelId && truthyS ws.username) = true
    · refine ⟨broadcast conns (chanRemoveFirst channels ws.channelId ws.id)
          ws.channelId (Frame.system ws.channelId (leaveContent ws.username)) ++
        [Act.persistMsg ws.channelId
          ⟨"system", persistSender ws, some (leaveContent ws.username),
            none⟩], ?_⟩
      simp [handleClose, hb, hp]
    · have hp2 : (truthyS ws.channelId && truthyS ws.username) = false := by
        simpa using hp
      refine ⟨[], ?_⟩
      simp [handleClose, hb, hp2]
  · intro hb a ha
    by_cases hp : (truthyS ws.channelId && truthyS ws.username) = true
    · simp [handleClose, hb, hp] at ha
      rcases ha with ha | rfl
      · obtain ⟨i, rfl⟩ := mem_broadcast_shape _ _ _ _ _ ha
        rfl
      · rfl
    · have hp2 : (truthyS ws.channelId && truthyS ws.username) = false := by
        simpa using hp
      simp [handleClose, hb, hp2] at ha
  · intro hp
    by_cases hb : (truthyS ws.empId || truthyN ws.userId) = true
    · exact ⟨by simp [handleClose, hb, hp], by simp [handleClose, hb, hp]⟩
    · have hb2 : (truthyS ws.empId || truthyN ws.userId) = false := by
        simpa using hb
      exact ⟨by simp [handleClose, hb2, hp], by simp [handleClose, hb2, hp]⟩
  · intro hp
    by_cases hb : (truthyS ws.empId || truthyN ws.userId) = true
    · exact ⟨by simp [handleClose, hb, hp], by simp [handleClose, hb, hp]⟩
    · have hb2 : (truthyS ws.empId || truthyN ws.userId) = false := by
        simpa using hb
      exact ⟨by simp [handleClose, hb2, hp], by simp [handleClose, hb2, hp]⟩

/-- Witness for C9 at the two mixed guard points: a connection with a bound
identity but no username closing is announced offline yet stays in its
channel's member list; a connection with a username and channel but no bound
identity is pruned and its leave message broadcast and persisted, with no
presence frame at all. -/
theorem c9_witness :
    handleClose [⟨2, some "n1", none, some "Nurse", some "C1", true, true⟩]
      [(some "C1", [8, 2])]
      ⟨8, some "e1", none, none, some "C1", true, false⟩ =
      ([(some "C1", [8, 2])],
       [Act.send 2
         (Frame.userStatus "e1" (some "Unknown User") "offline" false true)]) ∧
    handleClose [⟨2, some "n1", none, some "Nurse", some "C1", true, true⟩]
      [(some "C1", [9, 2])]
      ⟨9, none, none, some "Ghost", some "C1", true, false⟩ =
      ([(some "C1", [2])],
       [Act.send 2 (Frame.system (some "C1") "Ghost has left the channel"),
        Act.persistMsg (some "C1")
          ⟨"system", none, some "Ghost has left the channel", none⟩]) := by
  constructor
  · have h := c9_close_effects
      [⟨2, some "n1", none, some "Nurse", some "C1", true, true⟩]
      [(some "C1", [8, 2])] ⟨8, some "e1", none, none, some "C1", true, false⟩
    obtain ⟨h1, h2⟩ := h.2.2.2 (by decide)
    rw [Prod.ext_iff]
    exact ⟨by rw [h1], by rw [h2]; decide⟩
  · have h := c9_close_effects
      [⟨2, some "n1", none, some "Nurse", some "C1", true, true⟩]
      [(some "C1", [9, 2])] ⟨9, none, none, some "Ghost", some "C1", true, false⟩
    obtain ⟨h1, h2⟩ := h.2.2.1 (by decide)
    rw [Prod.ext_iff]
    exact ⟨by rw [h1]; decide, by rw [h2]; decide⟩
/-! ## C10 -/

/-- C10: a connection tracks a single current channel, so joining `B` after
`A` merely overwrites that field: the second join leaves the entry in `A`'s
member list, an open socket keeps receiving `A`'s broadcasts, and the close
handler prunes only the most recently joined channel — the entry in `A`
survives the disconnect no matter what. -/
theorem c10_stale_membership (store : Storage) (conns conns2 : List Conn)
    (channels : ChanMap) (ws : Conn) (dA dB : JoinData) (a b : String)
    (f : Frame)
    (hA : dA.channelId = some a) (hB : dB.channelId = some b) (hab : a ≠ b)
    (hopen : isOpen conns ws.id = true) :
    (handleJoin store conns ((handleJoin store conns channels ws dA).2.1)
        ((handleJoin store conns channels ws dA).1) dB).1.channelId = some b ∧
    ws.id ∈ chanGet (handleJoin store conns
        ((handleJoin store conns channels ws dA).2.1)
        ((handleJoin store conns channels ws dA).1) dB).2.1 (some a) ∧
    Act.send ws.id f ∈ broadcast conns (handleJoin store conns
        ((handleJoin store conns channels ws dA).2.1)
        ((handleJoin store conns channels ws dA).1) dB).2.1 (some a) f ∧
    ws.id ∈ chanGet (handleClose conns2
        ((handleJoin store conns ((handleJoin store conns channels ws dA).2.1)
          ((handleJoin store conns channels ws dA).1) dB).2.1)
        ((handleJoin store conns ((handleJoin store conns channels ws dA).2.1)
          ((handleJoin store conns channels ws dA).1) dB).1)).1 (some a) := by
  have hba : (some b : Option String) ≠ some a := fun h =>
    hab (Option.some.inj h).symm
  have hmem : ws.id ∈ chanGet (chanPush (chanPush channels dA.channelId ws.id)
      dB.channelId ws.id) (some a) := by
    rw [hB, chanGet_chanPush_other _ _ _ _ hba, hA, chanGet_chanPush_same]
    simp
  refine ⟨by simp [handleJoin, hB], hmem, ?_, ?_⟩
  · show Act.send ws.id f ∈ broadcast conns
      (chanPush (chanPush channels dA.channelId ws.id) dB.channelId ws.id)
      (some a) f
    exact send_mem_broadcast _ _ _ f _ hopen hmem
  · show ws.id ∈ chanGet (handleClose conns2
        (chanPush (chanPush channels dA.channelId ws.id) dB.channelId ws.id)
        { ws with channelId := dB.channelId }).1 (some a)
    by_cases hg : (truthyS dB.channelId && truthyS ws.username) = true
    · have h1 : (handleClose conns2
          (chanPush (chanPush channels dA.channelId ws.id) dB.channelId ws.id)
          { ws with channelId := dB.channelId }).1 =
          chanRemoveFirst
            (chanPush (chanPush channels dA.channelId ws.id) dB.channelId ws.id)
            dB.channelId ws.id := by
        simp [handleClose, hg]
      rw [h1, hB, chanGet_chanRemoveFirst_other _ _ _ _ hba,
        chanGet_chanPush_other _ _ _ _ hba, hA, chanGet_chanPush_same]
      simp
    · have hg' : (truthyS dB.channelId && truthyS ws.username) = false := by
        simpa using hg
      have h1 : (handleClose conns2
          (chanPush (chanPush channels dA.channelId ws.id) dB.channelId ws.id)
          { ws with channelId := dB.channelId }).1 =
          chanPush (chanPush channels dA.channelId ws.id) dB.channelId ws.id := by
        simp [handleClose, hg']
      rw [h1]
      exact hmem

/-- Witness for C10: join `A`, then `B`, broadcast to `A`, then close —
the connection's entry in `A` is present at every stage. -/
theorem c10_witness :
    (handleJoin ⟨[], [], [], []⟩
        [⟨1, some "e1", none, some "Dr", none, true, true⟩]
        ((handleJoin ⟨[], [], [], []⟩
          [⟨1, some "e1", none, some "Dr", none, true, true⟩] []
          ⟨1, some "e1", none, some "Dr", none, true, true⟩
          ⟨some "A", none, some "Dr"⟩).2.1)
        ((handleJoin ⟨[], [], [], []⟩
          [⟨1, some "e1", none, some "Dr", none, true, true⟩] []
          ⟨1, some "e1", none, some "Dr", none, true, true⟩
          ⟨some "A", none, some "Dr"⟩).1)
        ⟨some "B", none, some "Dr"⟩).1.channelId = some "B" ∧
    1 ∈ chanGet (handleJoin ⟨[], [], [], []⟩
        [⟨1, some "e1", none, some "Dr", none, true, true⟩]
        ((handleJoin ⟨[], [], [], []⟩
          [⟨1, some "e1", none, some "Dr", none, true, true⟩] []
          ⟨1, some "e1", none, some "Dr", none, true, true⟩
          ⟨some "A", none, some "Dr"⟩).2.1)
        ((handleJoin ⟨[], [], [], []⟩
          [⟨1, some "e1", none, some "Dr", none, true, true⟩] []
          ⟨1, some "e1", none, some "Dr", none, true, true⟩
          ⟨some "A", none, some "Dr"⟩).1)
        ⟨some "B", none, some "Dr"⟩).2.1 (some "A") ∧
    Act.send 1 (Frame.system (some "A") "x") ∈ broadcast
        [⟨1, some "e1", none, some "Dr", none, true, true⟩]
        (handleJoin ⟨[], [], [], []⟩
          [⟨1, some "e1", none, some "Dr", none, true, true⟩]
          ((handleJoin ⟨[], [], [], []⟩
            [⟨1, some "e1", none, some "Dr", none, true, true⟩] []
            ⟨1, some "e1", none, some "Dr", none, true, true⟩
            ⟨some "A", none, some "Dr"⟩).2.1)
          ((handleJoin ⟨[], [], [], []⟩
            [⟨1, some "e1", none, some "Dr", none, true, true⟩] []
            ⟨1, some "e1", none, some "Dr", none, true, true⟩
            ⟨some "A", none, some "Dr"⟩).1)
          ⟨some "B", none, some "Dr"⟩).2.1 (some "A")
        (Frame.system (some "A") "x") ∧
    1 ∈ chanGet (handleClose []
        ((handleJoin ⟨[], [], [], []⟩
          [⟨1, some "e1", none, some "Dr", none, true, true⟩]
          ((handleJoin ⟨[], [], [], []⟩
            [⟨1, some "e1", none, some "Dr", none, true, true⟩] []
            ⟨1, some "e1", none, some "Dr", none, true, true⟩
            ⟨some "A", none, some "Dr"⟩).2.1)
          ((handleJoin ⟨[], [], [], []⟩
            [⟨1, some "e1", none, some "Dr", none, true, true⟩] []
            ⟨1, some "e1", none, some "Dr", none, true, true⟩
            ⟨some "A", none, some "Dr"⟩).1)
          ⟨some "B", none, some "Dr"⟩).2.1)
        ((handleJoin ⟨[], [], [], []⟩
          [⟨1, some "e1", none, some "Dr", none, true, true⟩]
          ((handleJoin ⟨[], [], [], []⟩
            [⟨1, some "e1", none, some "Dr", none, true, true⟩] []
            ⟨1, some "e1", none, some "Dr", none, true, true⟩
            ⟨some "A", none, some "Dr"⟩).2.1)
          ((handleJoin ⟨[], [], [], []⟩
            [⟨1, some "e1", none, some "Dr", none, true, true⟩] []
            ⟨1, some "e1", none, some "Dr", none, true, true⟩
            ⟨some "A", none, some "Dr"⟩).1)
          ⟨some "B", none, some "Dr"⟩).1)).1 (some "A") :=
  c10_stale_membership ⟨[], [], [], []⟩
    [⟨1, some "e1", none, some "Dr", none, true, true⟩] [] []
    ⟨1, some "e1", none, some "Dr", none, true, true⟩
    ⟨some "A", none, some "Dr"⟩ ⟨some "B", none, some "Dr"⟩ "A" "B"
    (Frame.system (some "A") "x") rfl rfl (by decide) (by decide)
